import Mathlib

/-!
Shallow embedding of the GrClipMaskManager clip-mask subsystem
(GrClipMaskManager.cpp of this repository).  External collaborators
(path-renderer chain, texture allocator, clip-stack reduction, GPU caps)
are modelled as oracle inputs; every control-flow decision and every piece
of state the manager itself owns is translated from the source.
Integer coordinates are used for rectangles (the claims under study never
depend on fractional coordinates), and 16-bit stencil masks are Nat values
combined with the same bitwise operations the source performs.
-/

/-- SkRegion::Op: the set operators a clip element can carry. -/
inductive SkRegionOp
  | kReplace
  | kIntersect
  | kUnion
  | kXOR
  | kDifference
  | kReverseDifference
deriving DecidableEq, Repr

/-- SkClipStack::Element::Type (kEmpty / kRect / kRRect / kPath). -/
inductive ElementType
  | kEmpty
  | kRect
  | kRRect
  | kPath
deriving DecidableEq, Repr

/-- GrReducedClip::InitialState of a reduced clip stack. -/
inductive InitialState
  | kAllIn
  | kAllOut
deriving DecidableEq, Repr

/-- GrClipMaskManager's ClipMaskType member state. -/
inductive ClipMaskType
  | kNone
  | kAlpha
  | kStencil
deriving DecidableEq, Repr

/-- GrClipMaskManager::StencilClipMode. -/
inductive StencilClipMode
  | kIgnoreClip
  | kRespectClip
  | kModifyClip
deriving DecidableEq, Repr

/-- GrPathRendererChain::DrawType used for path-renderer lookups. -/
inductive DrawType
  | kColor
  | kColorAntiAlias
  | kStencilOnly
  | kStencilAndColor
  | kStencilAndColorAntiAlias
deriving DecidableEq, Repr

/-- GrPrimitiveEdgeType selected for a coverage fragment processor. -/
inductive GrPrimitiveEdgeType
  | kFillBW
  | kFillAA
  | kInverseFillBW
  | kInverseFillAA
deriving DecidableEq, Repr

/-- GrBlendCoeff: the blend coefficients used by setup_boolean_blendcoeffs. -/
inductive GrBlendCoeff
  | kZero
  | kOne
  | kSC
  | kISC
  | kDC
  | kIDC
  | kSA
  | kISA
  | kDA
  | kIDA
deriving DecidableEq, Repr

/-- GrStencilOp (only carried through, never inspected by the manager). -/
inductive GrStencilOp
  | kKeep
  | kReplace
  | kIncClamp
  | kIncWrap
  | kDecClamp
  | kDecWrap
  | kZero
  | kInvert
deriving DecidableEq, Repr

/-- GrStencilFunc: the eight basic funcs followed by the five clip funcs,
in the enum order of GrStencil.h (the clip funcs start at
kBasicStencilFuncCount). -/
inductive GrStencilFunc
  | kAlways
  | kNever
  | kGreater
  | kGEqual
  | kLess
  | kLEqual
  | kEqual
  | kNotEqual
  | kAlwaysIfInClip
  | kEqualIfInClip
  | kLessIfInClip
  | kLEqualIfInClip
  | kNonZeroIfInClip
deriving DecidableEq, Repr

/-- Whether a func lies at or above kBasicStencilFuncCount, i.e. is one of
the clip-relative funcs. -/
def GrStencilFunc.isClipFunc : GrStencilFunc → Bool
  | .kAlwaysIfInClip => true
  | .kEqualIfInClip => true
  | .kLessIfInClip => true
  | .kLEqualIfInClip => true
  | .kNonZeroIfInClip => true
  | _ => false

/-- The gSpecialToBasicStencilFunc table: row selected by whether
stencil-clipping is in effect (respectClip), column by the clip func.
Basic funcs are never looked up; the function is the identity on them. -/
def gSpecialToBasicStencilFunc (respectClip : Bool) (f : GrStencilFunc) : GrStencilFunc :=
  if respectClip then
    match f with
    | .kAlwaysIfInClip => .kEqual
    | .kEqualIfInClip => .kEqual
    | .kLessIfInClip => .kLess
    | .kLEqualIfInClip => .kLEqual
    | .kNonZeroIfInClip => .kLess
    | g => g
  else
    match f with
    | .kAlwaysIfInClip => .kAlways
    | .kEqualIfInClip => .kEqual
    | .kLessIfInClip => .kLess
    | .kLEqualIfInClip => .kLEqual
    | .kNonZeroIfInClip => .kNotEqual
    | g => g

/-- One face (front or back) of a GrStencilSettings: func, ops and the
three 16-bit masks.  Masks are Nats; the source combines them with the
same bitwise and / or used here. -/
structure StencilFaceSettings where
  func : GrStencilFunc
  passOp : GrStencilOp
  failOp : GrStencilOp
  writeMask : Nat
  funcMask : Nat
  funcRef : Nat
deriving DecidableEq, Repr

/-- GrStencilSettings: a front and a back face. -/
structure GrStencilSettings where
  front : StencilFaceSettings
  back : StencilFaceSettings
deriving DecidableEq, Repr

/-- The per-face body of GrClipMaskManager::adjustStencilParams
(the while-loop body, for modes other than kModifyClip). -/
def adjustFace (mode : StencilClipMode) (clipBit userBits : Nat)
    (f : StencilFaceSettings) : StencilFaceSettings :=
  let writeMask := f.writeMask &&& userBits
  if f.func.isClipFunc then
    let respectClip := mode = StencilClipMode.kRespectClip
    let mr : Nat × Nat :=
      if respectClip then
        match f.func with
        | .kAlwaysIfInClip => (clipBit, clipBit)
        | .kNonZeroIfInClip => ((f.funcMask &&& userBits) ||| clipBit, clipBit)
        | _ => ((f.funcMask &&& userBits) ||| clipBit, (f.funcRef &&& userBits) ||| clipBit)
      else
        (f.funcMask &&& userBits, f.funcRef &&& userBits)
    { f with
      func := gSpecialToBasicStencilFunc respectClip f.func,
      writeMask := writeMask,
      funcMask := mr.1,
      funcRef := mr.2 }
  else
    { f with
      writeMask := writeMask,
      funcMask := f.funcMask &&& userBits,
      funcRef := f.funcRef &&& userBits }

/-- GrClipMaskManager::adjustStencilParams.  `twoSided` is the
twoSidedStencilSupport capability of the clip target (an external oracle).
In kModifyClip mode the settings are returned untouched; otherwise the
front face (and, with two-sided support, the back face) is rewritten and,
without two-sided support, the front settings are copied to the back. -/
def adjustStencilParams (settings : GrStencilSettings) (mode : StencilClipMode)
    (stencilBitCnt : Nat) (twoSided : Bool) : GrStencilSettings :=
  if mode = StencilClipMode.kModifyClip then
    settings
  else
    let clipBit : Nat := 1 <<< (stencilBitCnt - 1)
    let userBits : Nat := clipBit - 1
    let front := adjustFace mode clipBit userBits settings.front
    if twoSided then
      { front := front, back := adjustFace mode clipBit userBits settings.back }
    else
      { front := front, back := front }

/-- SkIRect modelled with integer coordinates. -/
structure SkIRect where
  fLeft : Int
  fTop : Int
  fRight : Int
  fBottom : Int
deriving DecidableEq, Repr

/-- SkIRect::MakeWH. -/
def SkIRect.MakeWH (w h : Int) : SkIRect := ⟨0, 0, w, h⟩

/-- SkIRect::offset by a point. -/
def SkIRect.offsetBy (r : SkIRect) (dx dy : Int) : SkIRect :=
  ⟨r.fLeft + dx, r.fTop + dy, r.fRight + dx, r.fBottom + dy⟩

/-- SkRect::isEmpty for the integral rectangles used here. -/
def SkIRect.isEmptyRect (r : SkIRect) : Bool :=
  decide (r.fRight ≤ r.fLeft) || decide (r.fBottom ≤ r.fTop)

/-- SkRect::contains(SkRect): closed containment of non-empty rects. -/
def SkIRect.containsRect (a b : SkIRect) : Bool :=
  !b.isEmptyRect && !a.isEmptyRect &&
    decide (a.fLeft ≤ b.fLeft) && decide (a.fTop ≤ b.fTop) &&
    decide (b.fRight ≤ a.fRight) && decide (b.fBottom ≤ a.fBottom)

/-- One SkClipStack::Element as consumed by the manager: its shape kind,
set operator, AA flag and inverse-fill flag, plus the results of the two
purely geometric external queries made on it during a setupClipping call:
whether element->contains(boundsInClipSpace) holds for the current draw
bounds, and whether the GrConvexPolyEffect / GrRRectEffect factory yields
a non-NULL fragment processor for it. -/
structure Element where
  etype : ElementType
  op : SkRegionOp
  aa : Bool
  inverseFilled : Bool
  containsDrawBounds : Bool
  fpCreatable : Bool
deriving DecidableEq, Repr

/-- A coverage processor appended to the draw state: either a clip
fragment processor produced by installClipEffects, or the decal-sampled
alpha-mask texture effect added by setup_drawstate_aaclip. -/
inductive CoverageProc
  | clipFP (edgeType : GrPrimitiveEdgeType) (e : Element)
  | aaClipTexture (texture : Nat)
deriving DecidableEq, Repr

/-- The slice of GrDrawState the manager reads or writes: the clip-enabled
bit, the coverage-processor chain, the (possibly disabled) stencil
settings, and the blend coefficients. -/
structure GrDrawState where
  clipStateEnabled : Bool
  coverageProcs : List CoverageProc
  stencil : Option GrStencilSettings
  blendSrc : GrBlendCoeff
  blendDst : GrBlendCoeff
deriving DecidableEq, Repr

/-- GrDrawState::setBlendFunc. -/
def GrDrawState.setBlendFunc (ds : GrDrawState) (src dst : GrBlendCoeff) : GrDrawState :=
  { ds with blendSrc := src, blendDst := dst }

/-- setup_boolean_blendcoeffs: the fixed operator-to-blend-coefficient
table used while composing clip elements into the alpha accumulator. -/
def setup_boolean_blendcoeffs (op : SkRegionOp) (ds : GrDrawState) : GrDrawState :=
  match op with
  | .kReplace => ds.setBlendFunc .kOne .kZero
  | .kIntersect => ds.setBlendFunc .kDC .kZero
  | .kUnion => ds.setBlendFunc .kOne .kISC
  | .kXOR => ds.setBlendFunc .kIDC .kISC
  | .kDifference => ds.setBlendFunc .kZero .kISC
  | .kReverseDifference => ds.setBlendFunc .kIDC .kZero

/-- The stencil buffer attached to a render target: its bit count and the
result of the mustRenderClip(genID, bounds, offset) query for the current
call (external state owned by the render target). -/
structure StencilBufferState where
  bits : Nat
  mustRenderClip : Bool
deriving DecidableEq, Repr

/-- The render target fields the manager reads. -/
structure RenderTarget where
  width : Int
  height : Int
  numSamples : Nat
  stencilBuffer : Option StencilBufferState
deriving DecidableEq, Repr

/-- GrRenderTarget::isMultisampled. -/
def RenderTarget.isMultisampled (rt : RenderTarget) : Bool :=
  decide (rt.numSamples ≠ 0)

/-- The GrClipData fields the manager reads: whether the stack is wide
open, and the clip origin. -/
structure GrClipData where
  wideOpen : Bool
  originX : Int
  originY : Int
deriving DecidableEq, Repr

/-- The output of GrReducedClip::ReduceClipStack (an external
collaborator): element list, generation id, initial state, clip-space
bounds and the requiresAA flag. -/
structure ReducedClipOutput where
  elements : List Element
  genID : Int
  initialState : InitialState
  clipSpaceIBounds : SkIRect
  requiresAA : Bool

/-- The external collaborators consulted during one setupClipping call:
the path-renderer chain lookup (per draw type and element), the two
scratch-texture allocations (mask accumulator and temp mask) with the
texture ids they produce, and the two-sided-stencil capability. -/
structure ClipEnv where
  pathRenderer : DrawType → Element → Bool
  allocMaskSucceeds : Bool
  allocTempSucceeds : Bool
  maskTextureId : Nat
  tempTextureId : Nat
  twoSided : Bool

/-- Modelled from the spec: GrClipMaskCache (the single-slot AA mask
cache) is not part of the sources under src/; per spec section 4.2 it maps
a (generation id, bounds) pair to the last rendered mask texture and is
valid only while both match exactly.  The texture component is an Option
because acquiring a mask can fail to allocate a texture. -/
structure GrClipMaskCache where
  entry : Option (Int × SkIRect × Option Nat)
deriving DecidableEq, Repr

/-- Modelled from the spec: GrClipMaskCache::canReuse succeeds exactly
when the cached generation id and bounds match the query. -/
def GrClipMaskCache.canReuse (c : GrClipMaskCache) (gen : Int) (bounds : SkIRect) : Bool :=
  match c.entry with
  | some (g, b, _) => decide (g = gen) && decide (b = bounds)
  | none => false

/-- Modelled from the spec: GrClipMaskCache::getLastMask. -/
def GrClipMaskCache.getLastMask (c : GrClipMaskCache) : Option Nat :=
  match c.entry with
  | some (_, _, t) => t
  | none => none

/-- Modelled from the spec: GrClipMaskCache::reset drops the current
entry. -/
def GrClipMaskCache.resetCache (_ : GrClipMaskCache) : GrClipMaskCache :=
  ⟨none⟩

/-- Modelled from the spec: GrClipMaskCache::acquireMask records the
generation id, the bounds and the texture just allocated (NULL when the
allocation failed). -/
def GrClipMaskCache.acquireMask (_ : GrClipMaskCache) (gen : Int) (bounds : SkIRect)
    (tex : Option Nat) : GrClipMaskCache :=
  ⟨some (gen, bounds, tex)⟩

/-- The manager's own mutable state. -/
structure GrClipMaskManager where
  fCurrClipMaskType : ClipMaskType
  fClipMode : StencilClipMode
  fAACache : GrClipMaskCache
deriving DecidableEq, Repr

/-- The edge-type computation inside installClipEffects' element loop
(GR_AA_CLIP is 1 in this build). -/
def clipEffectEdgeType (aa invert : Bool) : GrPrimitiveEdgeType :=
  if aa then
    if invert then .kInverseFillAA else .kFillAA
  else
    if invert then .kInverseFillBW else .kFillBW

/-- The while-loop of GrClipMaskManager::installClipEffects.  Returns the
`failed` flag together with the draw state as mutated so far (coverage
processors are appended for every non-skipped element until a failure).
`hasDrawBounds` records whether drawBounds was non-NULL. -/
def installLoop (msaa hasDrawBounds : Bool) (ds : GrDrawState) :
    List Element → Bool × GrDrawState
  | [] => (false, ds)
  | e :: rest =>
    let step : Option (Bool × Bool) :=
      match e.op with
      | .kReplace => some (false, hasDrawBounds && e.containsDrawBounds)
      | .kIntersect => some (false, hasDrawBounds && e.containsDrawBounds)
      | .kDifference => some (true, false)
      | _ => none
    match step with
    | none => (true, ds)
    | some (invert, skip) =>
      if skip then
        installLoop msaa hasDrawBounds ds rest
      else
        if e.aa && msaa then
          (true, ds)
        else
          if e.fpCreatable then
            installLoop msaa hasDrawBounds
              { ds with coverageProcs :=
                  ds.coverageProcs ++ [CoverageProc.clipFP (clipEffectEdgeType e.aa invert) e] }
              rest
          else
            (true, ds)

/-- GrClipMaskManager::installClipEffects.  The AutoRestoreEffects guard
snapshots the coverage-processor count on entry; on failure the guard is
dropped, which truncates the chain back to the snapshot.  Returns
(!failed, resulting draw state). -/
def installClipEffects (msaa : Bool) (ds : GrDrawState) (elements : List Element)
    (clipToRTOffset : Int × Int) (drawBounds : Option SkIRect) : Bool × GrDrawState :=
  let n := ds.coverageProcs.length
  let r := installLoop msaa drawBounds.isSome ds elements
  if r.1 then
    (false, { r.2 with coverageProcs := r.2.coverageProcs.take n })
  else
    (true, r.2)

/-- path_needs_SW_renderer: true when no non-software path renderer is
found for the element's (inverse-normalised) path at the Color or
ColorAntiAlias draw type. -/
def path_needs_SW_renderer (env : ClipEnv) (e : Element) : Bool :=
  let t := if e.aa then DrawType.kColorAntiAlias else DrawType.kColor
  !(env.pathRenderer t e)

/-- GrClipMaskManager::useSWOnlyPath: scans the reduced elements; rects
never need software, every other shape is checked through
path_needs_SW_renderer. -/
def useSWOnlyPath (env : ClipEnv) (elements : List Element) : Bool :=
  elements.any (fun e =>
    decide (e.etype ≠ ElementType.kRect) && path_needs_SW_renderer env e)

/-- GrClipMaskManager::drawElement.  Rects (and the empty debug case)
always draw; other shapes draw through the given renderer, or through a
Color / ColorAntiAlias chain lookup when none was supplied, and fail when
that lookup comes back NULL. -/
def drawElement (env : ClipEnv) (e : Element) (prProvided : Bool) : Bool :=
  match e.etype with
  | .kEmpty => true
  | .kRect => true
  | _ =>
    if prProvided then
      true
    else
      let t := if e.aa then DrawType.kColorAntiAlias else DrawType.kColor
      env.pathRenderer t e

/-- GrClipMaskManager::canStencilAndDrawElement: rects always qualify;
other shapes qualify when a StencilAndColor (possibly AA) renderer
exists (which is then handed to drawElement). -/
def canStencilAndDrawElement (env : ClipEnv) (e : Element) : Bool :=
  if e.etype = ElementType.kRect then
    true
  else
    let t := if e.aa then DrawType.kStencilAndColorAntiAlias else DrawType.kStencilAndColor
    env.pathRenderer t e

/-- GrClipMaskManager::createTempMask: an A8 scratch render-target
allocation (external); returns the texture or NULL. -/
def createTempMask (env : ClipEnv) : Option Nat :=
  if env.allocTempSucceeds then some env.tempTextureId else none

/-- GrClipMaskManager::getCachedMaskTexture. -/
def getCachedMaskTexture (cache : GrClipMaskCache) (gen : Int) (bounds : SkIRect) :
    Option Nat :=
  if cache.canReuse gen bounds then cache.getLastMask else none

/-- GrClipMaskManager::allocMaskTexture: resets the cache so the old mask
can be recycled, then acquires a new entry for (gen, bounds); the scratch
allocation itself is external and may fail, leaving a NULL last mask.
`willUpload` only changes the surface descriptor flags and config. -/
def allocMaskTexture (env : ClipEnv) (cache : GrClipMaskCache) (gen : Int)
    (bounds : SkIRect) (willUpload : Bool) : Option Nat × GrClipMaskCache :=
  let cache1 := cache.resetCache
  let tex := if env.allocMaskSucceeds then some env.maskTextureId else none
  (tex, cache1.acquireMask gen bounds tex)

/-- The element loop of createAlphaClipMask.  Only the failure structure
and the temp-texture state are observable: rendering into the accumulator
(clears, mergeMask draws, stencil-assisted exterior clears) cannot fail
and touches no manager state.  Returns none on failure, otherwise the
(possibly newly created) temp texture. -/
def alphaMaskLoop (env : ClipEnv) (temp : Option Nat) :
    List Element → Option (Option Nat)
  | [] => some temp
  | e :: rest =>
    if e.inverseFilled || e.op = SkRegionOp.kIntersect
        || e.op = SkRegionOp.kReverseDifference then
      if canStencilAndDrawElement env e then
        if drawElement env e (decide (e.etype ≠ ElementType.kRect)) then
          alphaMaskLoop env temp rest
        else
          none
      else
        match temp with
        | some t =>
          if drawElement env e false then alphaMaskLoop env (some t) rest else none
        | none =>
          match createTempMask env with
          | none => none
          | some t =>
            if drawElement env e false then alphaMaskLoop env (some t) rest else none
    else
      alphaMaskLoop env temp rest

/-- The result of one alpha / software mask construction: the produced
texture (NULL on failure), the manager state afterwards, and whether the
construction went past the cache lookup (i.e. actually re-rendered). -/
structure MaskResult where
  texture : Option Nat
  mgr : GrClipMaskManager
  regenerated : Bool

/-- GrClipMaskManager::createAlphaClipMask. -/
def createAlphaClipMask (env : ClipEnv) (mgr : GrClipMaskManager) (gen : Int)
    (initialState : InitialState) (elements : List Element) (bounds : SkIRect) :
    MaskResult :=
  match getCachedMaskTexture mgr.fAACache gen bounds with
  | some t =>
    { texture := some t,
      mgr := { mgr with fCurrClipMaskType := ClipMaskType.kAlpha },
      regenerated := false }
  | none =>
    let ac := allocMaskTexture env mgr.fAACache gen bounds false
    match ac.1 with
    | none =>
      { texture := none,
        mgr := { mgr with fAACache := ac.2.resetCache },
        regenerated := true }
    | some result =>
      match alphaMaskLoop env none elements with
      | none =>
        { texture := none,
          mgr := { mgr with fAACache := ac.2.resetCache },
          regenerated := true }
      | some _ =>
        { texture := some result,
          mgr := { mgr with fAACache := ac.2, fCurrClipMaskType := ClipMaskType.kAlpha },
          regenerated := true }

/-- GrClipMaskManager::createSoftwareClipMask.  The GrSWMaskHelper
rasterisation loop composes the coverage bitmap on the CPU and cannot
fail; the only failure is the final mask-texture allocation.  A cache hit
returns early without touching fCurrClipMaskType. -/
def createSoftwareClipMask (env : ClipEnv) (mgr : GrClipMaskManager) (gen : Int)
    (initialState : InitialState) (elements : List Element) (bounds : SkIRect) :
    MaskResult :=
  match getCachedMaskTexture mgr.fAACache gen bounds with
  | some t => { texture := some t, mgr := mgr, regenerated := false }
  | none =>
    let ac := allocMaskTexture env mgr.fAACache gen bounds true
    match ac.1 with
    | none =>
      { texture := none,
        mgr := { mgr with fAACache := ac.2.resetCache },
        regenerated := true }
    | some result =>
      { texture := some result,
        mgr := { mgr with fAACache := ac.2, fCurrClipMaskType := ClipMaskType.kAlpha },
        regenerated := true }

/-- The per-element body of createStencilClipMask's element loop, as far
as it is observable: fClipMode is dropped to kIgnoreClip at the top of
each iteration; a non-rect element requires a kStencilOnly path renderer
and the whole construction fails without one; the clip-bit passes then
run with fClipMode = kModifyClip.  The stencil draws themselves (clears,
GetClipPasses tables, direct or two-pass rendering) cannot fail. -/
def stencilLoop (env : ClipEnv) (mgr : GrClipMaskManager) :
    List Element → Bool × GrClipMaskManager
  | [] => (true, mgr)
  | e :: rest =>
    let mgr1 := { mgr with fClipMode := StencilClipMode.kIgnoreClip }
    if e.etype = ElementType.kRect then
      stencilLoop env { mgr1 with fClipMode := StencilClipMode.kModifyClip } rest
    else
      if env.pathRenderer DrawType.kStencilOnly e then
        stencilLoop env { mgr1 with fClipMode := StencilClipMode.kModifyClip } rest
      else
        (false, mgr1)

/-- GrClipMaskManager::createStencilClipMask: fails without a stencil
buffer; re-renders the stencil mask only when mustRenderClip reports the
stored (genID, bounds, offset) key stale; on completion marks the mask
type Stencil and the mode RespectClip. -/
def createStencilClipMask (env : ClipEnv) (mgr : GrClipMaskManager) (rt : RenderTarget)
    (gen : Int) (initialState : InitialState) (elements : List Element)
    (bounds : SkIRect) (clipSpaceToStencilOffset : Int × Int) :
    Bool × GrClipMaskManager :=
  match rt.stencilBuffer with
  | none => (false, mgr)
  | some sb =>
    let run := if sb.mustRenderClip then stencilLoop env mgr elements else (true, mgr)
    if run.1 then
      (true, { run.2 with
               fCurrClipMaskType := ClipMaskType.kStencil,
               fClipMode := StencilClipMode.kRespectClip })
    else
      (false, run.2)

/-- setup_drawstate_aaclip: installs the mask texture as a decal-sampled
coverage processor (the positioning matrix and texel domain carry no
further manager-visible state). -/
def setup_drawstate_aaclip (devBound : SkIRect) (ds : GrDrawState) (result : Nat) :
    GrDrawState :=
  { ds with coverageProcs := ds.coverageProcs ++ [CoverageProc.aaClipTexture result] }

/-- basic_apply_stencil_clip_settings: keep/keep, kAlwaysIfInClip, all
masks and the reference zero. -/
def basicApplyStencilClipSettings : GrStencilSettings :=
  let face : StencilFaceSettings :=
    { func := GrStencilFunc.kAlwaysIfInClip, passOp := GrStencilOp.kKeep,
      failOp := GrStencilOp.kKeep, writeMask := 0, funcMask := 0, funcRef := 0 }
  { front := face, back := face }

/-- The stencil bit count of the render target's stencil buffer (0 when
none is attached). -/
def rtStencilBits (rt : RenderTarget) : Nat :=
  match rt.stencilBuffer with
  | some sb => sb.bits
  | none => 0

/-- GrClipMaskManager::setDrawStateStencil: leaves a disabled stencil
alone unless the clip lives in the stencil buffer (RespectClip), in which
case the basic clip settings are applied; any settings that are used get
rewritten through adjustStencilParams. -/
def setDrawStateStencil (env : ClipEnv) (mgr : GrClipMaskManager) (rt : RenderTarget)
    (ds : GrDrawState) : GrDrawState :=
  match ds.stencil with
  | none =>
    if mgr.fClipMode = StencilClipMode.kRespectClip then
      { ds with stencil := some (adjustStencilParams basicApplyStencilClipSettings
          mgr.fClipMode (rtStencilBits rt) env.twoSided) }
    else
      ds
  | some s =>
    { ds with stencil := some (adjustStencilParams s mgr.fClipMode (rtStencilBits rt)
        env.twoSided) }

/-- Which representation a successful setupClipping call installed. -/
inductive ClipRepresentation
  | ignoreRep
  | fastPathRep
  | alphaMaskRep
  | stencilRep
deriving DecidableEq, Repr

/-- Everything observable about one setupClipping call: the returned
Bool, the mutated draw state, the scissor rect (if one was set), the
manager state afterwards, and which branches ran: whether
installClipEffects was invoked, whether the alpha-mask branch was
entered (and on the software path or not), the mask texture installed,
and the discarded return value of createStencilClipMask when the
stencil fallback ran. -/
structure SetupResult where
  success : Bool
  rep : Option ClipRepresentation
  ds : GrDrawState
  scissor : Option SkIRect
  mgr : GrClipMaskManager
  fastAttempted : Bool
  enteredAlphaPath : Bool
  usedSWPath : Bool
  alphaMaskTexture : Option Nat
  stencilMaskOK : Option Bool

/-- The early-success exits of setupClipping taken when the clip is
ignored (clip disabled, wide-open stack, or an empty reduction covering
the whole target). -/
def setupIgnoreResult (env : ClipEnv) (mgr : GrClipMaskManager) (rt : RenderTarget)
    (ds : GrDrawState) : SetupResult :=
  { success := true, rep := some ClipRepresentation.ignoreRep,
    ds := setDrawStateStencil env mgr rt ds, scissor := none, mgr := mgr,
    fastAttempted := false, enteredAlphaPath := false, usedSWPath := false,
    alphaMaskTexture := none, stencilMaskOK := none }

/-- The one failing exit of setupClipping: an empty reduction with
initial state AllOut. -/
def setupFailResult (mgr : GrClipMaskManager) (ds : GrDrawState) : SetupResult :=
  { success := false, rep := none, ds := ds, scissor := none, mgr := mgr,
    fastAttempted := false, enteredAlphaPath := false, usedSWPath := false,
    alphaMaskTexture := none, stencilMaskOK := none }

/-- The scissor decision of the fast path: the reduced bounds shifted to
render-target space, set only when they do not already contain the
draw's device bounds. -/
def fastScissor (red : ReducedClipOutput) (cd : GrClipData) (devBounds : Option SkIRect) :
    Option SkIRect :=
  let s := red.clipSpaceIBounds.offsetBy (-cd.originX) (-cd.originY)
  match devBounds with
  | none => some s
  | some b => if s.containsRect b then none else some s

/-- The fast-path attempt of setupClipping (the condition of line
`elements.isEmpty() || (requiresAA && installClipEffects(...))`):
returns (condition value, draw state afterwards, whether
installClipEffects was actually invoked). -/
def fastTriple (rt : RenderTarget) (ds : GrDrawState) (cd : GrClipData)
    (red : ReducedClipOutput) (devBounds : Option SkIRect) :
    Bool × GrDrawState × Bool :=
  if red.elements = [] then
    (true, ds, false)
  else
    if red.requiresAA then
      let p := installClipEffects rt.isMultisampled ds red.elements
        (-cd.originX, -cd.originY) devBounds
      (p.1, p.2, true)
    else
      (false, ds, false)

/-- The unconditional stencil fallback at the end of setupClipping: the
AA cache is reset, createStencilClipMask runs (its Bool result is
dropped), the scissor is forced to the reduced bounds, and the call
reports success. -/
def setupClippingStencil (env : ClipEnv) (mgr : GrClipMaskManager) (ds : GrDrawState)
    (rt : RenderTarget) (cd : GrClipData) (red : ReducedClipOutput)
    (attempted enteredAlpha usedSW : Bool) : SetupResult :=
  let mgr1 := { mgr with fAACache := mgr.fAACache.resetCache }
  let r := createStencilClipMask env mgr1 rt red.genID red.initialState red.elements
    red.clipSpaceIBounds (-cd.originX, -cd.originY)
  { success := true, rep := some ClipRepresentation.stencilRep,
    ds := setDrawStateStencil env r.2 rt ds,
    scissor := some (red.clipSpaceIBounds.offsetBy (-cd.originX) (-cd.originY)),
    mgr := r.2, fastAttempted := attempted, enteredAlphaPath := enteredAlpha,
    usedSWPath := usedSW, alphaMaskTexture := none, stencilMaskOK := some r.1 }

/-- The GR_AA_CLIP block of setupClipping: entered only on a
non-multisampled target whose reduced clip requires AA; picks software or
GPU mask construction, installs a successful mask as a coverage
processor, and otherwise falls through to the stencil path. -/
def setupClippingAfterFast (env : ClipEnv) (mgr : GrClipMaskManager) (ds : GrDrawState)
    (rt : RenderTarget) (cd : GrClipData) (red : ReducedClipOutput)
    (attempted : Bool) : SetupResult :=
  if rt.numSamples = 0 ∧ red.requiresAA = true then
    let usedSW := useSWOnlyPath env red.elements
    let r :=
      if usedSW then
        createSoftwareClipMask env mgr red.genID red.initialState red.elements
          red.clipSpaceIBounds
      else
        createAlphaClipMask env mgr red.genID red.initialState red.elements
          red.clipSpaceIBounds
    match r.texture with
    | some t =>
      { success := true, rep := some ClipRepresentation.alphaMaskRep,
        ds := setDrawStateStencil env r.mgr rt
          (setup_drawstate_aaclip
            (red.clipSpaceIBounds.offsetBy (-cd.originX) (-cd.originY)) ds t),
        scissor := none, mgr := r.mgr, fastAttempted := attempted,
        enteredAlphaPath := true, usedSWPath := usedSW,
        alphaMaskTexture := some t, stencilMaskOK := none }
    | none => setupClippingStencil env r.mgr ds rt cd red attempted true usedSW
  else
    setupClippingStencil env mgr ds rt cd red attempted false false

/-- setupClipping from the fast-path check onward (reached with the clip
active and either a non-empty reduction or an empty AllIn reduction not
covering the render target). -/
def setupClippingMain (env : ClipEnv) (mgr : GrClipMaskManager) (ds : GrDrawState)
    (rt : RenderTarget) (cd : GrClipData) (red : ReducedClipOutput)
    (devBounds : Option SkIRect) : SetupResult :=
  if red.elements.length ≤ 4 then
    let t := fastTriple rt ds cd red devBounds
    if t.1 then
      { success := true, rep := some ClipRepresentation.fastPathRep,
        ds := setDrawStateStencil env mgr rt t.2.1,
        scissor := fastScissor red cd devBounds, mgr := mgr,
        fastAttempted := t.2.2, enteredAlphaPath := false, usedSWPath := false,
        alphaMaskTexture := none, stencilMaskOK := none }
    else
      setupClippingAfterFast env mgr t.2.1 rt cd red t.2.2
  else
    setupClippingAfterFast env mgr ds rt cd red false

/-- GrClipMaskManager::setupClipping.  `red` is the oracle output of the
external GrReducedClip::ReduceClipStack call (consulted only when the
clip is live).  The manager state is reset to no mask and, when stencil
clipping was being respected, back to IgnoreClip, before any branch is
taken. -/
def setupClipping (env : ClipEnv) (mgr0 : GrClipMaskManager) (ds : GrDrawState)
    (rt : RenderTarget) (cd : GrClipData) (red : ReducedClipOutput)
    (devBounds : Option SkIRect) : SetupResult :=
  let mgr : GrClipMaskManager :=
    { mgr0 with
      fCurrClipMaskType := ClipMaskType.kNone,
      fClipMode := if mgr0.fClipMode = StencilClipMode.kRespectClip
                   then StencilClipMode.kIgnoreClip else mgr0.fClipMode }
  if !ds.clipStateEnabled || cd.wideOpen then
    setupIgnoreResult env mgr rt ds
  else
    if red.elements = [] then
      if red.initialState = InitialState.kAllIn then
        if red.clipSpaceIBounds =
            (SkIRect.MakeWH rt.width rt.height).offsetBy cd.originX cd.originY then
          setupIgnoreResult env mgr rt ds
        else
          setupClippingMain env mgr ds rt cd red devBounds
      else
        setupFailResult mgr ds
    else
      setupClippingMain env mgr ds rt cd red devBounds

/-- The exact condition under which installClipEffects' loop fails on an
element: an operator outside replace / intersect / difference; or, for an
element not skipped (skipping happens when draw bounds exist and the
element contains them, and never for difference), coverage AA on a
multisampled target or a processor factory that returns NULL. -/
def clipEffectFails (msaa hasDrawBounds : Bool) (e : Element) : Bool :=
  match e.op with
  | .kReplace =>
    !(hasDrawBounds && e.containsDrawBounds) && ((e.aa && msaa) || !e.fpCreatable)
  | .kIntersect =>
    !(hasDrawBounds && e.containsDrawBounds) && ((e.aa && msaa) || !e.fpCreatable)
  | .kDifference => (e.aa && msaa) || !e.fpCreatable
  | _ => true

/-- A manager starting from a clean state: no mask, ignore-clip mode,
empty AA cache. -/
def baseMgr : GrClipMaskManager :=
  { fCurrClipMaskType := ClipMaskType.kNone,
    fClipMode := StencilClipMode.kIgnoreClip,
    fAACache := ⟨none⟩ }

/-- A draw state with clipping enabled, no processors, stencil disabled. -/
def baseDs : GrDrawState :=
  { clipStateEnabled := true, coverageProcs := [], stencil := none,
    blendSrc := GrBlendCoeff.kOne, blendDst := GrBlendCoeff.kZero }

/-- Clip data at the origin with a non-wide-open stack. -/
def baseCd : GrClipData := { wideOpen := false, originX := 0, originY := 0 }

/-- An environment whose path-renderer chain never finds a renderer. -/
def c1Env : ClipEnv :=
  { pathRenderer := fun _ _ => false, allocMaskSucceeds := true,
    allocTempSucceeds := true, maskTextureId := 7, tempTextureId := 8,
    twoSided := false }

/-- A non-AA intersect path element whose processor factory fails. -/
def c1Elem : Element :=
  { etype := ElementType.kPath, op := SkRegionOp.kIntersect, aa := false,
    inverseFilled := false, containsDrawBounds := false, fpCreatable := false }

/-- A 10x10 non-multisampled target carrying an 8-bit stencil buffer that
reports its stored clip stale. -/
def c1Rt : RenderTarget :=
  { width := 10, height := 10, numSamples := 0,
    stencilBuffer := some { bits := 8, mustRenderClip := true } }

/-- A reduction to one non-AA path element. -/
def c1Red : ReducedClipOutput :=
  { elements := [c1Elem], genID := 1, initialState := InitialState.kAllIn,
    clipSpaceIBounds := ⟨0, 0, 5, 5⟩, requiresAA := false }

/-- An environment where every lookup and allocation succeeds. -/
def c2Env : ClipEnv :=
  { pathRenderer := fun _ _ => true, allocMaskSucceeds := true,
    allocTempSucceeds := true, maskTextureId := 7, tempTextureId := 8,
    twoSided := false }

/-- An empty reduction with initial state AllOut. -/
def c2RedOut : ReducedClipOutput :=
  { elements := [], genID := 3, initialState := InitialState.kAllOut,
    clipSpaceIBounds := ⟨0, 0, 10, 10⟩, requiresAA := false }

/-- An empty AllIn reduction whose bounds equal the 10x10 target. -/
def c2RedIn : ReducedClipOutput :=
  { elements := [], genID := 3, initialState := InitialState.kAllIn,
    clipSpaceIBounds := ⟨0, 0, 10, 10⟩, requiresAA := false }

/-- A non-AA intersect rect element representable as a processor. -/
def c4Elem : Element :=
  { etype := ElementType.kRect, op := SkRegionOp.kIntersect, aa := false,
    inverseFilled := false, containsDrawBounds := false, fpCreatable := true }

/-- A reduction to one non-AA element: requiresAA is false. -/
def c4Red : ReducedClipOutput :=
  { elements := [c4Elem], genID := 2, initialState := InitialState.kAllIn,
    clipSpaceIBounds := ⟨0, 0, 5, 5⟩, requiresAA := false }

/-- An environment with GPU path renderers available but whose mask
allocation fails (and whose processor factory fails, so the fast path
cannot absorb the element). -/
def c5Env : ClipEnv :=
  { pathRenderer := fun _ _ => true, allocMaskSucceeds := false,
    allocTempSucceeds := true, maskTextureId := 7, tempTextureId := 8,
    twoSided := false }

/-- An AA intersect path element whose processor factory fails. -/
def c5Elem : Element :=
  { etype := ElementType.kPath, op := SkRegionOp.kIntersect, aa := true,
    inverseFilled := false, containsDrawBounds := false, fpCreatable := false }

/-- A reduction to one AA element: requiresAA is true. -/
def c5Red : ReducedClipOutput :=
  { elements := [c5Elem], genID := 4, initialState := InitialState.kAllIn,
    clipSpaceIBounds := ⟨0, 0, 5, 5⟩, requiresAA := true }

/-- Stencil settings whose front and back faces carry the given func with
full masks and a reference of 1 in the user bits. -/
def c6SettingsFor (f : GrStencilFunc) : GrStencilSettings :=
  let face : StencilFaceSettings :=
    { func := f, passOp := GrStencilOp.kKeep, failOp := GrStencilOp.kKeep,
      writeMask := 0xffff, funcMask := 0xffff, funcRef := 1 }
  { front := face, back := face }

/-- An environment for cache experiments: allocations succeed and every
renderer exists. -/
def c7Env : ClipEnv :=
  { pathRenderer := fun _ _ => true, allocMaskSucceeds := true,
    allocTempSucceeds := true, maskTextureId := 9, tempTextureId := 10,
    twoSided := false }

/-- Bounds used for the cache experiments. -/
def c7Bounds : SkIRect := ⟨0, 0, 4, 4⟩

/-- A union element: installClipEffects cannot express this operator. -/
def c8Elem : Element :=
  { etype := ElementType.kRect, op := SkRegionOp.kUnion, aa := false,
    inverseFilled := false, containsDrawBounds := false, fpCreatable := true }

/-- An intersect rect element that is representable, placed before the
failing element so a processor gets added and must be rolled back. -/
def c8ElemOk : Element :=
  { etype := ElementType.kRect, op := SkRegionOp.kIntersect, aa := false,
    inverseFilled := false, containsDrawBounds := false, fpCreatable := true }

/-- A draw state already carrying one coverage processor, to observe the
all-or-nothing rollback of installClipEffects. -/
def c8Ds : GrDrawState :=
  { clipStateEnabled := true, coverageProcs := [CoverageProc.aaClipTexture 5],
    stencil := none, blendSrc := GrBlendCoeff.kOne, blendDst := GrBlendCoeff.kZero }

/-- An environment whose mask allocation fails, for exercising the
failure paths of the mask constructors. -/
def c10Env : ClipEnv :=
  { pathRenderer := fun _ _ => true, allocMaskSucceeds := false,
    allocTempSucceeds := true, maskTextureId := 9, tempTextureId := 10,
    twoSided := false }

theorem setupIgnoreResult_success (env : ClipEnv) (mgr : GrClipMaskManager)
    (rt : RenderTarget) (ds : GrDrawState) :
    (setupIgnoreResult env mgr rt ds).success = true := rfl

theorem setupClippingStencil_success (env : ClipEnv) (mgr : GrClipMaskManager)
    (ds : GrDrawState) (rt : RenderTarget) (cd : GrClipData) (red : ReducedClipOutput)
    (attempted enteredAlpha usedSW : Bool) :
    (setupClippingStencil env mgr ds rt cd red attempted enteredAlpha usedSW).success
      = true := rfl

theorem setupClippingAfterFast_success (env : ClipEnv) (mgr : GrClipMaskManager)
    (ds : GrDrawState) (rt : RenderTarget) (cd : GrClipData) (red : ReducedClipOutput)
    (attempted : Bool) :
    (setupClippingAfterFast env mgr ds rt cd red attempted).success = true := by
  unfold setupClippingAfterFast
  split
  · dsimp only
    split <;> rfl
  · rfl

theorem setupClippingMain_success (env : ClipEnv) (mgr : GrClipMaskManager)
    (ds : GrDrawState) (rt : RenderTarget) (cd : GrClipData) (red : ReducedClipOutput)
    (devBounds : Option SkIRect) :
    (setupClippingMain env mgr ds rt cd red devBounds).success = true := by
  unfold setupClippingMain
  split
  · dsimp only
    split
    · rfl
    · exact setupClippingAfterFast_success ..
  · exact setupClippingAfterFast_success ..

theorem setDrawStateStencil_coverage (env : ClipEnv) (mgr : GrClipMaskManager)
    (rt : RenderTarget) (ds : GrDrawState) :
    (setDrawStateStencil env mgr rt ds).coverageProcs = ds.coverageProcs := by
  unfold setDrawStateStencil
  split
  · split <;> rfl
  · rfl

/-- Claim C3: during alpha-mask construction the blend coefficients
installed for each set operator are replace to (one, zero), intersect to
(dst-alpha, zero), union to (one, inverse-src-alpha), xor to
(inverse-dst-alpha, inverse-src-alpha), difference to
(zero, inverse-src-alpha) and reverse-difference to
(inverse-dst-alpha, zero). -/
theorem C3_boolean_blendcoeffs (ds : GrDrawState) :
    ((setup_boolean_blendcoeffs SkRegionOp.kReplace ds).blendSrc = GrBlendCoeff.kOne
      ∧ (setup_boolean_blendcoeffs SkRegionOp.kReplace ds).blendDst = GrBlendCoeff.kZero)
    ∧ ((setup_boolean_blendcoeffs SkRegionOp.kIntersect ds).blendSrc = GrBlendCoeff.kDC
      ∧ (setup_boolean_blendcoeffs SkRegionOp.kIntersect ds).blendDst = GrBlendCoeff.kZero)
    ∧ ((setup_boolean_blendcoeffs SkRegionOp.kUnion ds).blendSrc = GrBlendCoeff.kOne
      ∧ (setup_boolean_blendcoeffs SkRegionOp.kUnion ds).blendDst = GrBlendCoeff.kISC)
    ∧ ((setup_boolean_blendcoeffs SkRegionOp.kXOR ds).blendSrc = GrBlendCoeff.kIDC
      ∧ (setup_boolean_blendcoeffs SkRegionOp.kXOR ds).blendDst = GrBlendCoeff.kISC)
    ∧ ((setup_boolean_blendcoeffs SkRegionOp.kDifference ds).blendSrc = GrBlendCoeff.kZero
      ∧ (setup_boolean_blendcoeffs SkRegionOp.kDifference ds).blendDst = GrBlendCoeff.kISC)
    ∧ ((setup_boolean_blendcoeffs SkRegionOp.kReverseDifference ds).blendSrc
        = GrBlendCoeff.kIDC
      ∧ (setup_boolean_blendcoeffs SkRegionOp.kReverseDifference ds).blendDst
        = GrBlendCoeff.kZero) :=
  ⟨⟨rfl, rfl⟩, ⟨rfl, rfl⟩, ⟨rfl, rfl⟩, ⟨rfl, rfl⟩, ⟨rfl, rfl⟩, ⟨rfl, rfl⟩⟩

/-- Claim C9: in Modify-clip mode adjustStencilParams returns the
settings object unchanged (no field of either face is modified). -/
theorem C9_modify_mode_unchanged (settings : GrStencilSettings) (stencilBitCnt : Nat)
    (twoSided : Bool) :
    adjustStencilParams settings StencilClipMode.kModifyClip stencilBitCnt twoSided
      = settings := rfl

/-- Claim C6: in Ignore-clip mode adjustStencilParams maps the clip funcs
to Always / Equal / Less / LEqual / NotEqual and restricts the masks to
the user bits, but it does not force the function reference to zero for
NonZeroIfInClip: with an 8-bit stencil buffer (clip bit 0x80, user bits
0x7f) and an incoming reference of 1, the outgoing reference stays 1,
contrary to the claim and to the table's own comment saying the reference
is made 0. -/
theorem C6_ignore_mode_eval :
    ((adjustStencilParams (c6SettingsFor GrStencilFunc.kAlwaysIfInClip)
        StencilClipMode.kIgnoreClip 8 false).front.func = GrStencilFunc.kAlways)
    ∧ ((adjustStencilParams (c6SettingsFor GrStencilFunc.kEqualIfInClip)
        StencilClipMode.kIgnoreClip 8 false).front.func = GrStencilFunc.kEqual)
    ∧ ((adjustStencilParams (c6SettingsFor GrStencilFunc.kLessIfInClip)
        StencilClipMode.kIgnoreClip 8 false).front.func = GrStencilFunc.kLess)
    ∧ ((adjustStencilParams (c6SettingsFor GrStencilFunc.kLEqualIfInClip)
        StencilClipMode.kIgnoreClip 8 false).front.func = GrStencilFunc.kLEqual)
    ∧ ((adjustStencilParams (c6SettingsFor GrStencilFunc.kNonZeroIfInClip)
        StencilClipMode.kIgnoreClip 8 false).front.func = GrStencilFunc.kNotEqual)
    ∧ ((adjustStencilParams (c6SettingsFor GrStencilFunc.kNonZeroIfInClip)
        StencilClipMode.kIgnoreClip 8 false).front.writeMask = 0x7f)
    ∧ ((adjustStencilParams (c6SettingsFor GrStencilFunc.kNonZeroIfInClip)
        StencilClipMode.kIgnoreClip 8 false).front.funcMask = 0x7f)
    ∧ ((adjustStencilParams (c6SettingsFor GrStencilFunc.kNonZeroIfInClip)
        StencilClipMode.kIgnoreClip 8 false).front.funcRef = 1)
    ∧ ¬((adjustStencilParams (c6SettingsFor GrStencilFunc.kNonZeroIfInClip)
        StencilClipMode.kIgnoreClip 8 false).front.funcRef = 0) := by
  decide

/-- Claim C1 counterexample: with no path renderer available anywhere,
a one-element reduction reaches stencil-mask construction,
createStencilClipMask reports failure (stencilMaskOK = some false), yet
setupClipping returns success — the claim says it must return false. -/
theorem C1_counterexample :
    c1Env.pathRenderer DrawType.kStencilOnly c1Elem = false
    ∧ (setupClipping c1Env baseMgr baseDs c1Rt baseCd c1Red none).stencilMaskOK
        = some false
    ∧ (setupClipping c1Env baseMgr baseDs c1Rt baseCd c1Red none).success = true := by
  decide

/-- Claim C1 as amended: a missing path renderer makes the failing stage
itself report failure, but setupClipping discards the stencil-stage
result and still returns true; setupClipping returns false exactly when
the clip is live and the reduction is empty with initial state AllOut. -/
theorem C1_amended_failure_characterisation (env : ClipEnv) (mgr : GrClipMaskManager)
    (ds : GrDrawState) (rt : RenderTarget) (cd : GrClipData) (red : ReducedClipOutput)
    (devBounds : Option SkIRect) :
    (setupClipping env mgr ds rt cd red devBounds).success = false ↔
      (ds.clipStateEnabled = true ∧ cd.wideOpen = false ∧ red.elements = []
        ∧ red.initialState = InitialState.kAllOut) := by
  constructor
  · intro h
    unfold setupClipping at h
    dsimp only at h
    split at h
    · rw [setupIgnoreResult_success] at h
      exact absurd h (by simp)
    · rename_i hcond
      have hclip : ds.clipStateEnabled = true ∧ cd.wideOpen = false := by
        constructor
        · by_contra hc
          exact hcond (by simp [Bool.not_eq_true] at hc; simp [hc])
        · by_contra hc
          exact hcond (by simp [Bool.not_eq_true] at hc; simp [hc])
      split at h
      · split at h
        · split at h
          · rw [setupIgnoreResult_success] at h
            exact absurd h (by simp)
          · rw [setupClippingMain_success] at h
            exact absurd h (by simp)
        · rename_i hempty hstate
          refine ⟨hclip.1, hclip.2, hempty, ?_⟩
          cases hs : red.initialState
          · exact absurd hs hstate
          · rfl
      · rw [setupClippingMain_success] at h
        exact absurd h (by simp)
  · rintro ⟨h1, h2, h3, h4⟩
    simp [setupClipping, setupFailResult, h1, h2, h3, h4]

/-- Claim C2: an empty reduction with initial state AllOut makes
setupClipping fail; an empty AllIn reduction whose bounds equal the
render-target bounds is treated as ignoreClip: success with no scissor,
no mask texture and no coverage processor added. -/
theorem C2_empty_reduction (env : ClipEnv) (mgr : GrClipMaskManager) (ds : GrDrawState)
    (rt : RenderTarget) (cd : GrClipData) (red : ReducedClipOutput)
    (devBounds : Option SkIRect)
    (hclip : ds.clipStateEnabled = true) (hwide : cd.wideOpen = false)
    (hempty : red.elements = []) :
    (red.initialState = InitialState.kAllOut →
      (setupClipping env mgr ds rt cd red devBounds).success = false)
    ∧ (red.initialState = InitialState.kAllIn →
       red.clipSpaceIBounds
         = (SkIRect.MakeWH rt.width rt.height).offsetBy cd.originX cd.originY →
       ((setupClipping env mgr ds rt cd red devBounds).success = true
        ∧ (setupClipping env mgr ds rt cd red devBounds).rep
            = some ClipRepresentation.ignoreRep
        ∧ (setupClipping env mgr ds rt cd red devBounds).scissor = none
        ∧ (setupClipping env mgr ds rt cd red devBounds).alphaMaskTexture = none
        ∧ (setupClipping env mgr ds rt cd red devBounds).ds.coverageProcs
            = ds.coverageProcs)) := by
  constructor
  · intro h
    simp [setupClipping, setupFailResult, hclip, hwide, hempty, h]
  · intro h hb
    simp [setupClipping, setupIgnoreResult, hclip, hwide, hempty, h, hb,
      setDrawStateStencil_coverage]

/-- Witness for claim C2 at concrete inputs. -/
theorem C2_empty_reduction_witness :
    (setupClipping c2Env baseMgr baseDs c1Rt baseCd c2RedOut none).success = false
    ∧ ((setupClipping c2Env baseMgr baseDs c1Rt baseCd c2RedIn none).success = true
       ∧ (setupClipping c2Env baseMgr baseDs c1Rt baseCd c2RedIn none).rep
           = some ClipRepresentation.ignoreRep
       ∧ (setupClipping c2Env baseMgr baseDs c1Rt baseCd c2RedIn none).scissor = none
       ∧ (setupClipping c2Env baseMgr baseDs c1Rt baseCd c2RedIn none).alphaMaskTexture
           = none
       ∧ (setupClipping c2Env baseMgr baseDs c1Rt baseCd c2RedIn none).ds.coverageProcs
           = baseDs.coverageProcs) :=
  ⟨(C2_empty_reduction c2Env baseMgr baseDs c1Rt baseCd c2RedOut none rfl rfl rfl).1 rfl,
   (C2_empty_reduction c2Env baseMgr baseDs c1Rt baseCd c2RedIn none rfl rfl rfl).2
     rfl (by decide)⟩

theorem fastTriple_attempted_iff (rt : RenderTarget) (ds : GrDrawState) (cd : GrClipData)
    (red : ReducedClipOutput) (devBounds : Option SkIRect) :
    (fastTriple rt ds cd red devBounds).2.2 = true ↔
      (red.elements ≠ [] ∧ red.requiresAA = true) := by
  unfold fastTriple
  split
  · rename_i he
    simp [he]
  · rename_i he
    split
    · rename_i hr
      simp [he, hr]
    · rename_i hr
      simp [he, hr]

theorem setupClippingAfterFast_fastAttempted (env : ClipEnv) (mgr : GrClipMaskManager)
    (ds : GrDrawState) (rt : RenderTarget) (cd : GrClipData) (red : ReducedClipOutput)
    (attempted : Bool) :
    (setupClippingAfterFast env mgr ds rt cd red attempted).fastAttempted = attempted := by
  unfold setupClippingAfterFast
  split
  · dsimp only
    split <;> rfl
  · rfl

theorem setupClippingMain_fastAttempted_iff (env : ClipEnv) (mgr : GrClipMaskManager)
    (ds : GrDrawState) (rt : RenderTarget) (cd : GrClipData) (red : ReducedClipOutput)
    (devBounds : Option SkIRect) :
    (setupClippingMain env mgr ds rt cd red devBounds).fastAttempted = true ↔
      (red.elements ≠ [] ∧ red.elements.length ≤ 4 ∧ red.requiresAA = true) := by
  unfold setupClippingMain
  split
  · rename_i hlen
    dsimp only
    split
    · simpa [hlen] using fastTriple_attempted_iff rt ds cd red devBounds
    · rw [setupClippingAfterFast_fastAttempted]
      simpa [hlen] using fastTriple_attempted_iff rt ds cd red devBounds
  · rename_i hlen
    rw [setupClippingAfterFast_fastAttempted]
    constructor
    · intro h
      cases h
    · rintro ⟨-, h2, -⟩
      exact absurd h2 hlen

theorem setupIgnoreResult_fastAttempted (env : ClipEnv) (mgr : GrClipMaskManager)
    (rt : RenderTarget) (ds : GrDrawState) :
    (setupIgnoreResult env mgr rt ds).fastAttempted = false := rfl

theorem setupFailResult_fastAttempted (mgr : GrClipMaskManager) (ds : GrDrawState) :
    (setupFailResult mgr ds).fastAttempted = false := rfl

theorem installLoop_failed_iff (msaa hdb : Bool) :
    ∀ (elems : List Element) (ds : GrDrawState),
      ((installLoop msaa hdb ds elems).1 = true
        ↔ elems.any (clipEffectFails msaa hdb) = true)
  | [], ds => by simp [installLoop]
  | e :: rest, ds => by
    cases hop : e.op
    case kReplace =>
      by_cases hskip : (hdb && e.containsDrawBounds) = true
      · simp [installLoop, hop, hskip, clipEffectFails,
          installLoop_failed_iff msaa hdb rest ds]
      · by_cases haa : (e.aa && msaa) = true
        · simp [installLoop, hop, hskip, haa, clipEffectFails]
        · by_cases hfp : e.fpCreatable = true
          · simp [installLoop, hop, hskip, haa, hfp, clipEffectFails,
              installLoop_failed_iff msaa hdb rest]
          · simp [installLoop, hop, hskip, haa, hfp, clipEffectFails]
    case kIntersect =>
      by_cases hskip : (hdb && e.containsDrawBounds) = true
      · simp [installLoop, hop, hskip, clipEffectFails,
          installLoop_failed_iff msaa hdb rest ds]
      · by_cases haa : (e.aa && msaa) = true
        · simp [installLoop, hop, hskip, haa, clipEffectFails]
        · by_cases hfp : e.fpCreatable = true
          · simp [installLoop, hop, hskip, haa, hfp, clipEffectFails,
              installLoop_failed_iff msaa hdb rest]
          · simp [installLoop, hop, hskip, haa, hfp, clipEffectFails]
    case kDifference =>
      by_cases haa : (e.aa && msaa) = true
      · simp [installLoop, hop, haa, clipEffectFails]
      · by_cases hfp : e.fpCreatable = true
        · simp [installLoop, hop, haa, hfp, clipEffectFails,
            installLoop_failed_iff msaa hdb rest]
        · simp [installLoop, hop, haa, hfp, clipEffectFails]
    case kUnion => simp [installLoop, hop, clipEffectFails]
    case kXOR => simp [installLoop, hop, clipEffectFails]
    case kReverseDifference => simp [installLoop, hop, clipEffectFails]

/-- Claim C4 counterexample: a reduction to a single representable
non-AA intersect rect (count 1 of at most 4) never reaches
installClipEffects, because the fast path is attempted only when the
reduction requires AA — yet setupClipping still succeeds via the stencil
path. -/
theorem C4_counterexample :
    c4Red.elements.length = 1
    ∧ (setupClipping c2Env baseMgr baseDs c1Rt baseCd c4Red none).fastAttempted = false
    ∧ (setupClipping c2Env baseMgr baseDs c1Rt baseCd c4Red none).rep
        = some ClipRepresentation.stencilRep
    ∧ (setupClipping c2Env baseMgr baseDs c1Rt baseCd c4Red none).success = true := by
  decide

/-- Claim C4 as amended: with the clip live, installClipEffects is
attempted exactly for a non-empty reduction of at most four elements that
requires AA; and the attempt fails exactly when some element carries an
unsupported operator (union, xor, reverse-difference) or, unless skipped
for containing the draw bounds, needs coverage AA on a multisampled
target or is not representable by a processor factory. -/
theorem C4_amended_fast_path (env : ClipEnv) (mgr : GrClipMaskManager) (ds : GrDrawState)
    (rt : RenderTarget) (cd : GrClipData) (red : ReducedClipOutput)
    (devBounds : Option SkIRect) (msaa : Bool) (ds2 : GrDrawState)
    (elems : List Element) (off : Int × Int) (db2 : Option SkIRect) :
    ((setupClipping env mgr ds rt cd red devBounds).fastAttempted = true ↔
      (ds.clipStateEnabled = true ∧ cd.wideOpen = false ∧ red.elements ≠ []
        ∧ red.elements.length ≤ 4 ∧ red.requiresAA = true))
    ∧ ((installClipEffects msaa ds2 elems off db2).1 = false ↔
        elems.any (clipEffectFails msaa db2.isSome) = true) := by
  constructor
  · unfold setupClipping
    dsimp only
    split
    · rename_i hcond
      rw [setupIgnoreResult_fastAttempted]
      constructor
      · intro h
        cases h
      · rintro ⟨h1, h2, -, -, -⟩
        simp [h1, h2] at hcond
    · rename_i hcond
      have hc : ds.clipStateEnabled = true ∧ cd.wideOpen = false := by
        constructor
        · by_contra hx
          exact hcond (by simp [Bool.not_eq_true] at hx; simp [hx])
        · by_contra hx
          exact hcond (by simp [Bool.not_eq_true] at hx; simp [hx])
      split
      · rename_i hempty
        split
        · split
          · rw [setupIgnoreResult_fastAttempted]
            constructor
            · intro h
              cases h
            · rintro ⟨-, -, hne, -, -⟩
              exact absurd hempty hne
          · rw [setupClippingMain_fastAttempted_iff]
            constructor
            · rintro ⟨hne, -, -⟩
              exact absurd hempty hne
            · rintro ⟨-, -, hne, -, -⟩
              exact absurd hempty hne
        · rw [setupFailResult_fastAttempted]
          constructor
          · intro h
            cases h
          · rintro ⟨-, -, hne, -, -⟩
            exact absurd hempty hne
      · rename_i hempty
        rw [setupClippingMain_fastAttempted_iff]
        simp [hc.1, hc.2, hempty]
  · have hiff := installLoop_failed_iff msaa db2.isSome elems ds2
    unfold installClipEffects
    dsimp only
    split
    · rename_i h
      simp [hiff.mp h]
    · rename_i h
      simp only [Bool.true_eq_false, false_iff]
      intro hany
      exact h (hiff.mpr hany)

theorem setupClippingStencil_entered (env : ClipEnv) (mgr : GrClipMaskManager)
    (ds : GrDrawState) (rt : RenderTarget) (cd : GrClipData) (red : ReducedClipOutput)
    (attempted enteredAlpha usedSW : Bool) :
    (setupClippingStencil env mgr ds rt cd red attempted enteredAlpha usedSW).enteredAlphaPath
      = enteredAlpha := rfl

theorem setupIgnoreResult_entered (env : ClipEnv) (mgr : GrClipMaskManager)
    (rt : RenderTarget) (ds : GrDrawState) :
    (setupIgnoreResult env mgr rt ds).enteredAlphaPath = false := rfl

theorem setupFailResult_entered (mgr : GrClipMaskManager) (ds : GrDrawState) :
    (setupFailResult mgr ds).enteredAlphaPath = false := rfl

theorem setupClippingAfterFast_entered (env : ClipEnv) (mgr : GrClipMaskManager)
    (ds : GrDrawState) (rt : RenderTarget) (cd : GrClipData) (red : ReducedClipOutput)
    (attempted : Bool) :
    (setupClippingAfterFast env mgr ds rt cd red attempted).enteredAlphaPath = true →
      (rt.numSamples = 0 ∧ red.requiresAA = true) := by
  unfold setupClippingAfterFast
  split
  · rename_i hcond
    intro _
    exact hcond
  · intro h
    rw [setupClippingStencil_entered] at h
    cases h

theorem setupClippingAfterFast_fallthrough (env : ClipEnv) (mgr : GrClipMaskManager)
    (ds : GrDrawState) (rt : RenderTarget) (cd : GrClipData) (red : ReducedClipOutput)
    (attempted : Bool) :
    (setupClippingAfterFast env mgr ds rt cd red attempted).alphaMaskTexture = none →
      ((setupClippingAfterFast env mgr ds rt cd red attempted).success = true
       ∧ (setupClippingAfterFast env mgr ds rt cd red attempted).rep
           = some ClipRepresentation.stencilRep
       ∨ (setupClippingAfterFast env mgr ds rt cd red attempted).enteredAlphaPath
           = false) := by
  unfold setupClippingAfterFast
  split
  · dsimp only
    split
    · intro h2
      simp at h2
    · intro _
      exact Or.inl ⟨rfl, rfl⟩
  · intro _
    exact Or.inl ⟨rfl, rfl⟩

theorem setupClippingMain_entered (env : ClipEnv) (mgr : GrClipMaskManager)
    (ds : GrDrawState) (rt : RenderTarget) (cd : GrClipData) (red : ReducedClipOutput)
    (devBounds : Option SkIRect) :
    (setupClippingMain env mgr ds rt cd red devBounds).enteredAlphaPath = true →
      (rt.numSamples = 0 ∧ red.requiresAA = true) := by
  unfold setupClippingMain
  split
  · dsimp only
    split
    · intro h
      simp at h
    · apply setupClippingAfterFast_entered
  · apply setupClippingAfterFast_entered

theorem setupClippingMain_fallthrough (env : ClipEnv) (mgr : GrClipMaskManager)
    (ds : GrDrawState) (rt : RenderTarget) (cd : GrClipData) (red : ReducedClipOutput)
    (devBounds : Option SkIRect) :
    (setupClippingMain env mgr ds rt cd red devBounds).enteredAlphaPath = true →
    (setupClippingMain env mgr ds rt cd red devBounds).alphaMaskTexture = none →
      ((setupClippingMain env mgr ds rt cd red devBounds).success = true
       ∧ (setupClippingMain env mgr ds rt cd red devBounds).rep
           = some ClipRepresentation.stencilRep) := by
  unfold setupClippingMain
  split
  · dsimp only
    split
    · intro h
      simp at h
    · intro h1 h2
      rcases setupClippingAfterFast_fallthrough _ _ _ _ _ _ _ h2 with h | h
      · exact h
      · rw [h] at h1
        cases h1
  · intro h1 h2
    rcases setupClippingAfterFast_fallthrough _ _ _ _ _ _ _ h2 with h | h
    · exact h
    · rw [h] at h1
      cases h1

/-- The alpha-mask guard of setupClipping, lifted to the top level. -/
theorem setupClipping_entered (env : ClipEnv) (mgr : GrClipMaskManager)
    (ds : GrDrawState) (rt : RenderTarget) (cd : GrClipData) (red : ReducedClipOutput)
    (devBounds : Option SkIRect) :
    (setupClipping env mgr ds rt cd red devBounds).enteredAlphaPath = true →
      (rt.numSamples = 0 ∧ red.requiresAA = true) := by
  unfold setupClipping
  dsimp only
  split
  · intro h
    rw [setupIgnoreResult_entered] at h
    cases h
  · split
    · split
      · split
        · intro h
          rw [setupIgnoreResult_entered] at h
          cases h
        · apply setupClippingMain_entered
      · intro h
        rw [setupFailResult_entered] at h
        cases h
    · apply setupClippingMain_entered

theorem setupClipping_fallthrough (env : ClipEnv) (mgr : GrClipMaskManager)
    (ds : GrDrawState) (rt : RenderTarget) (cd : GrClipData) (red : ReducedClipOutput)
    (devBounds : Option SkIRect) :
    (setupClipping env mgr ds rt cd red devBounds).enteredAlphaPath = true →
    (setupClipping env mgr ds rt cd red devBounds).alphaMaskTexture = none →
      ((setupClipping env mgr ds rt cd red devBounds).success = true
       ∧ (setupClipping env mgr ds rt cd red devBounds).rep
           = some ClipRepresentation.stencilRep) := by
  unfold setupClipping
  dsimp only
  split
  · intro h
    rw [setupIgnoreResult_entered] at h
    cases h
  · split
    · split
      · split
        · intro h
          rw [setupIgnoreResult_entered] at h
          cases h
        · apply setupClippingMain_fallthrough
      · intro h
        rw [setupFailResult_entered] at h
        cases h
    · apply setupClippingMain_fallthrough

/-- Claim C5: the alpha-mask path (createAlphaClipMask or
createSoftwareClipMask) is entered only when the target is not
multisampled and the reduced clip requires AA; when mask construction
fails, setupClipping falls through to the stencil representation and
still succeeds. -/
theorem C5_alpha_mask_path (env : ClipEnv) (mgr : GrClipMaskManager) (ds : GrDrawState)
    (rt : RenderTarget) (cd : GrClipData) (red : ReducedClipOutput)
    (devBounds : Option SkIRect)
    (h : (setupClipping env mgr ds rt cd red devBounds).enteredAlphaPath = true) :
    (rt.numSamples = 0 ∧ red.requiresAA = true)
    ∧ ((setupClipping env mgr ds rt cd red devBounds).alphaMaskTexture = none →
       ((setupClipping env mgr ds rt cd red devBounds).success = true
        ∧ (setupClipping env mgr ds rt cd red devBounds).rep
            = some ClipRepresentation.stencilRep)) :=
  ⟨setupClipping_entered env mgr ds rt cd red devBounds h,
   setupClipping_fallthrough env mgr ds rt cd red devBounds h⟩

/-- Witness for claim C5 at a concrete input whose mask allocation
fails. -/
theorem C5_alpha_mask_path_witness :
    (c1Rt.numSamples = 0 ∧ c5Red.requiresAA = true)
    ∧ ((setupClipping c5Env baseMgr baseDs c1Rt baseCd c5Red none).success = true
       ∧ (setupClipping c5Env baseMgr baseDs c1Rt baseCd c5Red none).rep
           = some ClipRepresentation.stencilRep) :=
  ⟨(C5_alpha_mask_path c5Env baseMgr baseDs c1Rt baseCd c5Red none (by decide)).1,
   (C5_alpha_mask_path c5Env baseMgr baseDs c1Rt baseCd c5Red none (by decide)).2
     (by decide)⟩

theorem getCachedMaskTexture_some (cache : GrClipMaskCache) (gen : Int)
    (bounds : SkIRect) (t : Nat)
    (h : getCachedMaskTexture cache gen bounds = some t) :
    cache.entry = some (gen, bounds, some t) := by
  unfold getCachedMaskTexture at h
  split at h
  · rename_i hcr
    unfold GrClipMaskCache.canReuse at hcr
    unfold GrClipMaskCache.getLastMask at h
    rcases hE : cache.entry with - | ⟨g, b, tex⟩
    · rw [hE] at hcr
      cases hcr
    · rw [hE] at hcr h
      simp only [Bool.and_eq_true, decide_eq_true_eq] at hcr
      rw [hcr.1, hcr.2]
      exact congrArg (fun x => some (gen, bounds, x)) h
  · cases h

theorem createAlphaClipMask_success_entry (env : ClipEnv) (mgr : GrClipMaskManager)
    (gen : Int) (istate : InitialState) (elems : List Element) (bounds : SkIRect) :
    ∀ t, (createAlphaClipMask env mgr gen istate elems bounds).texture = some t →
      (createAlphaClipMask env mgr gen istate elems bounds).mgr.fAACache.entry
        = some (gen, bounds, some t) := by
  unfold createAlphaClipMask
  split
  · rename_i t0 hc
    intro t h
    simp only at h
    have hE := getCachedMaskTexture_some mgr.fAACache gen bounds t0 hc
    simp only []
    rw [hE, h]
  · rename_i hc
    dsimp only
    split
    · intro t h
      simp at h
    · rename_i result hac
      split
      · intro t h
        simp at h
      · intro t h
        simp only at h
        unfold allocMaskTexture at hac ⊢
        dsimp only at hac ⊢
        by_cases halloc : env.allocMaskSucceeds = true
        · rw [halloc] at hac ⊢
          simp only [if_true] at hac ⊢
          unfold GrClipMaskCache.acquireMask
          simp only []
          rw [show env.maskTextureId = result from by simpa using hac, h]
        · simp [halloc] at hac

theorem createAlphaClipMask_hit (env2 : ClipEnv) (m : GrClipMaskManager) (gen : Int)
    (istate2 : InitialState) (elems2 : List Element) (bounds : SkIRect) (t : Nat)
    (hcached : getCachedMaskTexture m.fAACache gen bounds = some t) :
    (createAlphaClipMask env2 m gen istate2 elems2 bounds).texture = some t
    ∧ (createAlphaClipMask env2 m gen istate2 elems2 bounds).regenerated = false := by
  unfold createAlphaClipMask
  split
  · rename_i t0 hc
    rw [hcached] at hc
    injection hc with hcc
    dsimp only
    exact ⟨by rw [hcc], rfl⟩
  · rename_i hc
    rw [hcached] at hc
    cases hc

theorem createAlphaClipMask_miss (env2 : ClipEnv) (m : GrClipMaskManager) (gen2 : Int)
    (istate2 : InitialState) (elems2 : List Element) (bounds2 : SkIRect)
    (hmiss : getCachedMaskTexture m.fAACache gen2 bounds2 = none) :
    (createAlphaClipMask env2 m gen2 istate2 elems2 bounds2).regenerated = true := by
  unfold createAlphaClipMask
  split
  · rename_i t0 hc
    rw [hmiss] at hc
    cases hc
  · dsimp only
    split
    · rfl
    · split
      · rfl
      · rfl

/-- Claim C7: a second mask construction with the same generation id and
bounds returns the cached texture without re-rendering, and a changed
generation id or bounds forces a full regeneration. -/
theorem C7_mask_cache (env env2 : ClipEnv) (mgr : GrClipMaskManager) (gen : Int)
    (istate istate2 : InitialState) (elems elems2 : List Element) (bounds : SkIRect)
    (t : Nat)
    (h : (createAlphaClipMask env mgr gen istate elems bounds).texture = some t) :
    ((createAlphaClipMask env2 (createAlphaClipMask env mgr gen istate elems bounds).mgr
        gen istate2 elems2 bounds).texture = some t
     ∧ (createAlphaClipMask env2 (createAlphaClipMask env mgr gen istate elems bounds).mgr
        gen istate2 elems2 bounds).regenerated = false)
    ∧ ∀ (gen2 : Int) (bounds2 : SkIRect), gen2 ≠ gen ∨ bounds2 ≠ bounds →
        (createAlphaClipMask env2 (createAlphaClipMask env mgr gen istate elems bounds).mgr
          gen2 istate2 elems2 bounds2).regenerated = true := by
  have hE := createAlphaClipMask_success_entry env mgr gen istate elems bounds t h
  constructor
  · have hcached : getCachedMaskTexture
        (createAlphaClipMask env mgr gen istate elems bounds).mgr.fAACache gen bounds
        = some t := by
      unfold getCachedMaskTexture GrClipMaskCache.canReuse GrClipMaskCache.getLastMask
      rw [hE]
      simp
    exact createAlphaClipMask_hit env2 _ gen istate2 elems2 bounds t hcached
  · intro gen2 bounds2 hne
    have hmiss : getCachedMaskTexture
        (createAlphaClipMask env mgr gen istate elems bounds).mgr.fAACache gen2 bounds2
        = none := by
      unfold getCachedMaskTexture GrClipMaskCache.canReuse
      rw [hE]
      rcases hne with hg | hb
      · have hd : decide (gen = gen2) = false := decide_eq_false (fun hh => hg hh.symm)
        simp [hd]
      · have hd : decide (bounds = bounds2) = false := decide_eq_false (fun hh => hb hh.symm)
        simp [hd]
    exact createAlphaClipMask_miss env2 _ gen2 istate2 elems2 bounds2 hmiss

/-- Witness for claim C7: a successful construction at generation 5, a
hit at generation 5, and a forced regeneration at generation 6. -/
theorem C7_mask_cache_witness :
    ((createAlphaClipMask c7Env
        (createAlphaClipMask c7Env baseMgr 5 InitialState.kAllIn [] c7Bounds).mgr
        5 InitialState.kAllIn [] c7Bounds).texture = some 9
     ∧ (createAlphaClipMask c7Env
        (createAlphaClipMask c7Env baseMgr 5 InitialState.kAllIn [] c7Bounds).mgr
        5 InitialState.kAllIn [] c7Bounds).regenerated = false)
    ∧ (createAlphaClipMask c7Env
        (createAlphaClipMask c7Env baseMgr 5 InitialState.kAllIn [] c7Bounds).mgr
        6 InitialState.kAllIn [] c7Bounds).regenerated = true :=
  ⟨(C7_mask_cache c7Env c7Env baseMgr 5 InitialState.kAllIn InitialState.kAllIn [] []
      c7Bounds 9 (by decide)).1,
   (C7_mask_cache c7Env c7Env baseMgr 5 InitialState.kAllIn InitialState.kAllIn [] []
      c7Bounds 9 (by decide)).2 6 c7Bounds (Or.inl (by decide))⟩

theorem installLoop_coverage (msaa hdb : Bool) :
    ∀ (elems : List Element) (ds : GrDrawState),
      ∃ l, (installLoop msaa hdb ds elems).2.coverageProcs = ds.coverageProcs ++ l
  | [], ds => ⟨[], by simp [installLoop]⟩
  | e :: rest, ds => by
    cases hop : e.op
    case kReplace =>
      by_cases hskip : (hdb && e.containsDrawBounds) = true
      · obtain ⟨l, hl⟩ := installLoop_coverage msaa hdb rest ds
        exact ⟨l, by simp only [installLoop, hop, hskip, if_true]; exact hl⟩
      · by_cases haa : (e.aa && msaa) = true
        · exact ⟨[], by simp [installLoop, hop, hskip, haa]⟩
        · by_cases hfp : e.fpCreatable = true
          · obtain ⟨l, hl⟩ := installLoop_coverage msaa hdb rest
              { ds with coverageProcs := ds.coverageProcs
                  ++ [CoverageProc.clipFP (clipEffectEdgeType e.aa false) e] }
            refine ⟨CoverageProc.clipFP (clipEffectEdgeType e.aa false) e :: l, ?_⟩
            simp only [installLoop, hop, hskip, haa, hfp, if_true, if_false,
              Bool.false_eq_true]
            rw [hl]
            simp
          · exact ⟨[], by simp [installLoop, hop, hskip, haa, hfp]⟩
    case kIntersect =>
      by_cases hskip : (hdb && e.containsDrawBounds) = true
      · obtain ⟨l, hl⟩ := installLoop_coverage msaa hdb rest ds
        exact ⟨l, by simp only [installLoop, hop, hskip, if_true]; exact hl⟩
      · by_cases haa : (e.aa && msaa) = true
        · exact ⟨[], by simp [installLoop, hop, hskip, haa]⟩
        · by_cases hfp : e.fpCreatable = true
          · obtain ⟨l, hl⟩ := installLoop_coverage msaa hdb rest
              { ds with coverageProcs := ds.coverageProcs
                  ++ [CoverageProc.clipFP (clipEffectEdgeType e.aa false) e] }
            refine ⟨CoverageProc.clipFP (clipEffectEdgeType e.aa false) e :: l, ?_⟩
            simp only [installLoop, hop, hskip, haa, hfp, if_true, if_false,
              Bool.false_eq_true]
            rw [hl]
            simp
          · exact ⟨[], by simp [installLoop, hop, hskip, haa, hfp]⟩
    case kDifference =>
      by_cases haa : (e.aa && msaa) = true
      · exact ⟨[], by simp [installLoop, hop, haa]⟩
      · by_cases hfp : e.fpCreatable = true
        · obtain ⟨l, hl⟩ := installLoop_coverage msaa hdb rest
            { ds with coverageProcs := ds.coverageProcs
                ++ [CoverageProc.clipFP (clipEffectEdgeType e.aa true) e] }
          refine ⟨CoverageProc.clipFP (clipEffectEdgeType e.aa true) e :: l, ?_⟩
          simp only [installLoop, hop, haa, hfp, if_true, if_false, Bool.false_eq_true]
          rw [hl]
          simp
        · exact ⟨[], by simp [installLoop, hop, haa, hfp]⟩
    case kUnion => exact ⟨[], by simp [installLoop, hop]⟩
    case kXOR => exact ⟨[], by simp [installLoop, hop]⟩
    case kReverseDifference => exact ⟨[], by simp [installLoop, hop]⟩

/-- Claim C8: installClipEffects is all-or-nothing: when it fails, every
coverage processor it added is removed and the draw state's processor
chain is back to its pre-call contents. -/
theorem C8_install_all_or_nothing (msaa : Bool) (ds : GrDrawState) (elems : List Element)
    (off : Int × Int) (db : Option SkIRect) :
    (installClipEffects msaa ds elems off db).1 = false →
      (installClipEffects msaa ds elems off db).2.coverageProcs = ds.coverageProcs := by
  unfold installClipEffects
  dsimp only
  split
  · intro _
    obtain ⟨l, hl⟩ := installLoop_coverage msaa db.isSome elems ds
    dsimp only
    rw [hl]
    exact List.take_left ..
  · intro h
    cases h

/-- Witness for claim C8: a representable intersect rect followed by a
union element; the added processor is rolled back. -/
theorem C8_install_all_or_nothing_witness :
    (installClipEffects false c8Ds [c8ElemOk, c8Elem] (0, 0) none).1 = false
    ∧ (installClipEffects false c8Ds [c8ElemOk, c8Elem] (0, 0) none).2.coverageProcs
        = c8Ds.coverageProcs :=
  ⟨by decide,
   C8_install_all_or_nothing false c8Ds [c8ElemOk, c8Elem] (0, 0) none (by decide)⟩

/-- Claim C10: whenever createAlphaClipMask or createSoftwareClipMask
fails it returns NULL with the AA mask cache reset, so no stale or
partially rendered mask remains for a later lookup. -/
theorem C10_failure_resets_cache (env : ClipEnv) (mgr : GrClipMaskManager) (gen : Int)
    (istate : InitialState) (elems : List Element) (bounds : SkIRect) :
    ((createAlphaClipMask env mgr gen istate elems bounds).texture = none →
      (createAlphaClipMask env mgr gen istate elems bounds).mgr.fAACache.entry = none)
    ∧ ((createSoftwareClipMask env mgr gen istate elems bounds).texture = none →
      (createSoftwareClipMask env mgr gen istate elems bounds).mgr.fAACache.entry
        = none) := by
  constructor
  · unfold createAlphaClipMask
    split
    · intro h
      simp at h
    · dsimp only
      split
      · intro _
        rfl
      · split
        · intro _
          rfl
        · intro h
          simp at h
  · unfold createSoftwareClipMask
    split
    · intro h
      simp at h
    · dsimp only
      split
      · intro _
        rfl
      · intro h
        simp at h

/-- Witness for claim C10 at a concrete input whose allocation fails. -/
theorem C10_failure_resets_cache_witness :
    (createAlphaClipMask c10Env baseMgr 1 InitialState.kAllIn [] c7Bounds).mgr.fAACache.entry
        = none
    ∧ (createSoftwareClipMask c10Env baseMgr 1 InitialState.kAllIn [] c7Bounds).mgr.fAACache.entry
        = none :=
  ⟨(C10_failure_resets_cache c10Env baseMgr 1 InitialState.kAllIn [] c7Bounds).1 (by decide),
   (C10_failure_resets_cache c10Env baseMgr 1 InitialState.kAllIn [] c7Bounds).2 (by decide)⟩
